import Mathlib

/-! Vidiment front end: the request lifecycle of `frontend/src/App.js`.

A shallow embedding of the `App` component: its state variables, the two
submit handlers `handleGenerateStoryVideo` and `handleGenerateRedditVideo`,
the shared `commonApiCall`, `handleFileChange`, and the event wiring of the
rendered form (every control carries `disabled={isLoading}`).

Conventions of the embedding:

* a JavaScript string is the list of its characters;
* a JavaScript value is a `JsVal`; a JSON number is kept as the two
  observations the component can make of it, `ToBoolean` and `ToString`;
* an evaluation that may throw returns `Except JsString _`, the error being
  the `message` of the exception; messages chosen by the JavaScript engine
  are taken from an `Engine` parameter;
* `commonApiCall` is an `async` function: `commonApiCallBegin` is the part
  that runs up to `await fetch(..)`, `commonApiCallSettle` the part that runs
  when the fetch promise settles, `commonApiCall` their composition;
* the page keeps the state of the last render apart from the component
  state: the `disabled` attributes and the values the handlers read are those
  of the last render, and a `render` event brings the two together.
-/

namespace Vidiment

/-! ## JavaScript strings -/

/-- A JavaScript string, as the list of its characters. The component tests
characters only for white space and for the slash, all of them single UTF-16
code units, so `trim` and `split` act on characters as they do on code
units. -/
abbrev JsString := List Char

/-- The characters removed by `String.prototype.trim`: ECMAScript `WhiteSpace`
(TAB, VT, FF, ZWNBSP and the Unicode space separators) and `LineTerminator`
(LF, CR, LS, PS). -/
def isWhiteSpace (c : Char) : Bool :=
  let n := c.toNat
  n == 0x09 || n == 0x0A || n == 0x0B || n == 0x0C || n == 0x0D || n == 0x20
    || n == 0xA0 || n == 0x1680 || (0x2000 ≤ n && n ≤ 0x200A)
    || n == 0x2028 || n == 0x2029 || n == 0x202F || n == 0x205F
    || n == 0x3000 || n == 0xFEFF

/-- The method `s.trim()`: `s` without its leading and trailing white space. -/
def trim (s : JsString) : JsString :=
  ((s.dropWhile isWhiteSpace).reverse.dropWhile isWhiteSpace).reverse

/-- The method `s.split(sep)` for a one-character separator: the segments of
`s` between the occurrences of `sep`, in order. -/
def split (sep : Char) : JsString → List JsString
  | [] => [[]]
  | c :: cs =>
    if c = sep then [] :: split sep cs
    else
      match split sep cs with
      | [] => [[c]]
      | seg :: segs => (c :: seg) :: segs

/-- The method `a.pop()` as far as its result goes: the last element of the
array, `undefined` (here `none`) when the array is empty. -/
def pop (a : List JsString) : Option JsString :=
  a.getLast?

/-- A string-valued expression inside a template literal: a string is
inserted as it is, `undefined` as the text `undefined`. -/
def interpolate : Option JsString → JsString
  | some s => s
  | none => "undefined".toList

/-! ## JavaScript values -/

/-- A JavaScript value as it can come out of `JSON.parse` or of a property
read. `num truthy text` is a number, given by its `ToBoolean` and its
`ToString`. An object is the list of its own properties in insertion order;
with a repeated key the last entry is the one in force, as in `JSON.parse`. -/
inductive JsVal where
  | undefined
  | null
  | bool (b : Bool)
  | num (truthy : Bool) (text : JsString)
  | str (s : JsString)
  | arr (items : List JsVal)
  | obj (props : List (JsString × JsVal))

/-- The exceptions the engine itself raises in this component, all of them
`TypeError`s. -/
inductive Fault where
  /-- Reading property `prop` of `null` or `undefined`. -/
  | readOfNullish (prop : JsString)
  /-- Calling property `prop` of a value on which it is not a function. -/
  | notCallable (prop : JsString)
  /-- Converting to a string an object that has no callable `toString`. -/
  | noPrimitive

/-- The JavaScript engine, as far as the component depends on it: the
`message` text it puts on the `TypeError`s it raises. -/
structure Engine where
  typeErrorMessage : Fault → JsString

/-- The abstract operation `ToBoolean`: what `v || w` and `if (v)` test. -/
def truthy : JsVal → Bool
  | .undefined => false
  | .null => false
  | .bool b => b
  | .num t _ => t
  | .str s => !s.isEmpty
  | .arr _ => true
  | .obj _ => true

/-- The own property `key` of an object given by its property list: the last
entry with that key. -/
def ownProp (key : JsString) : List (JsString × JsVal) → Option JsVal
  | [] => none
  | (k, v) :: rest =>
    match ownProp key rest with
    | some w => some w
    | none => if k = key then some v else none

/-- The property read `v.key`, for a `key` that no built-in prototype defines
(the component reads `detail`, `video_path`, `story`, `video_script` and
`original_title`): a `TypeError` on `null` and `undefined`, the own property
of an object, `undefined` in every other case. -/
def getProp (eng : Engine) (v : JsVal) (key : JsString) : Except JsString JsVal :=
  match v with
  | .undefined => .error (eng.typeErrorMessage (.readOfNullish key))
  | .null => .error (eng.typeErrorMessage (.readOfNullish key))
  | .obj props =>
    match ownProp key props with
    | some w => .ok w
    | none => .ok .undefined
  | _ => .ok .undefined

mutual
/-- The abstract operation `ToString`, `none` when it throws a `TypeError`.
An array is joined with commas; a plain object gives `[object Object]`
unless an own property shadows `toString`, which leaves the object without a
callable conversion. -/
def toStringJs : JsVal → Option JsString
  | .undefined => some "undefined".toList
  | .null => some "null".toList
  | .bool b => some (if b then "true".toList else "false".toList)
  | .num _ text => some text
  | .str s => some s
  | .arr items => joinJs items
  | .obj props =>
    match ownProp "toString".toList props with
    | some _ => none
    | none => some "[object Object]".toList
/-- The method `Array.prototype.join` with its default separator: `null` and
`undefined` elements contribute the empty string. -/
def joinJs : List JsVal → Option JsString
  | [] => some []
  | [v] => elementJs v
  | v :: w :: rest =>
    match elementJs v, joinJs (w :: rest) with
    | some a, some b => some (a ++ ',' :: b)
    | _, _ => none
/-- One element of an array inside `join`. -/
def elementJs : JsVal → Option JsString
  | .undefined => some []
  | .null => some []
  | .bool b => some (if b then "true".toList else "false".toList)
  | .num _ text => some text
  | .str s => some s
  | .arr items => joinJs items
  | .obj props =>
    match ownProp "toString".toList props with
    | some _ => none
    | none => some "[object Object]".toList
end

/-- The call `v.split(sep)`: a `TypeError` unless `v` is a string. -/
def callSplit (eng : Engine) (v : JsVal) (sep : Char) : Except JsString (List JsString) :=
  match v with
  | .str s => .ok (split sep s)
  | .undefined => .error (eng.typeErrorMessage (.readOfNullish "split".toList))
  | .null => .error (eng.typeErrorMessage (.readOfNullish "split".toList))
  | _ => .error (eng.typeErrorMessage (.notCallable "split".toList))

/-! ## Files, form data, fetch -/

/-- A `File` picked in a file input. -/
structure File where
  name : JsString
  type : JsString
  bytes : List Nat
deriving DecidableEq

/-- A value of the state variable `backgroundImageFile`: `null` (initial and
after a success), `undefined` (`files[0]` of an empty selection) or a file. -/
inductive FileSlot where
  | null
  | undefined
  | file (f : File)
deriving DecidableEq

/-- One entry value of a `FormData`: a `Blob` holding `JSON.stringify(content)`
with its media type, or a file. -/
inductive Part where
  | jsonBlob (content : JsVal) (type : JsString)
  | file (f : File)

/-- A `FormData`: its entries in the order they were appended. -/
abbrev FormData := List (JsString × Part)

/-- The arguments of one `fetch(url, { method, body })`. -/
structure FetchCall where
  url : JsString
  method : JsString
  body : FormData

/-- A `commonApiCall` suspended at `await fetch(..)`: the call it waits for
and the `isStoryVideo` argument it will resume with. -/
structure Pending where
  call : FetchCall
  isStoryVideo : Bool

/-- A `Response` as the component observes it: `ok`, `status`, and what
`await response.json()` gives, the parsed body or the message of the
exception it rejects with. -/
structure Response where
  ok : Bool
  status : Nat
  json : Except JsString JsVal

/-- How the promise returned by `fetch` settles. -/
inductive FetchOutcome where
  | rejected (message : JsString)
  | fulfilled (response : Response)

/-! ## Component state -/

/-- The state of `App`: its eleven `useState` variables and, for the two
refs, the `value` of the file input each points to (`none` for a ref whose
`current` is `null`). -/
structure AppState where
  prompt : JsString
  subreddit : JsString
  videoUrl : JsString
  isLoading : Bool
  story : JsVal
  error : JsString
  backgroundImageFile : FileSlot
  storyYoutubeUrl : JsString
  redditYoutubeUrl : JsString
  storyGenerateNarration : Bool
  redditGenerateNarration : Bool
  storyFileInput : Option JsString
  redditFileInput : Option JsString

/-- The state after the first render: the `useState` initial values, both
file inputs mounted and empty. -/
def initialState : AppState where
  prompt := []
  subreddit := []
  videoUrl := []
  isLoading := false
  story := .str []
  error := []
  backgroundImageFile := .null
  storyYoutubeUrl := []
  redditYoutubeUrl := []
  storyGenerateNarration := false
  redditGenerateNarration := false
  storyFileInput := some []
  redditFileInput := some []

/-- The two upload widgets, `bg-upload-story` and `bg-upload-reddit`. -/
inductive Widget where
  | story
  | reddit
deriving DecidableEq

/-- The `change` event of a file input: the widget it comes from, the
widget's new `value`, and `event.target.files`. -/
structure FileChange where
  target : Widget
  value : JsString
  files : List File

/-- The handler `handleFileChange`: stores `event.target.files[0]`. -/
def handleFileChange (event : FileChange) (s : AppState) : AppState :=
  { s with backgroundImageFile :=
      match event.files with
      | [] => .undefined
      | f :: _ => .file f }

/-! ## `commonApiCall` -/

/-- The outcome of running a block of statements: the state after the
setters that ran, and the message of the exception that left the block, if
one did. -/
structure Ran where
  state : AppState
  thrown : Option JsString

/-- `commonApiCall` up to `await fetch(url, ..)`: the four resets, then the
fetch is issued and the function suspends. -/
def commonApiCallBegin (url : JsString) (formData : FormData) (isStoryVideo : Bool)
    (s : AppState) : AppState × List Pending :=
  let s := { s with isLoading := true }
  let s := { s with videoUrl := [] }
  let s := if isStoryVideo then { s with story := .str [] } else { s with story := .str [] }
  let s := { s with error := [] }
  (s, [{ call := { url := url, method := "POST".toList, body := formData },
         isStoryVideo := isStoryVideo }])

/-- The argument of `new Error(..)` in the `!response.ok` branch, converted
to the error's message: `errorData.detail` when truthy, else the status
text. -/
def rejectionMessage (eng : Engine) (errorData : JsVal) (status : Nat) :
    Except JsString JsString :=
  match getProp eng errorData "detail".toList with
  | .error m => .error m
  | .ok detail =>
    if truthy detail then
      match toStringJs detail with
      | some m => .ok m
      | none => .error (eng.typeErrorMessage .noPrimitive)
    else .ok ("HTTP error! status: ".toList ++ Nat.toDigits 10 status)

/-- The argument of `setVideoUrl`: the static base followed by
`data.video_path.split('/').pop()`. -/
def displayUrl (eng : Engine) (data : JsVal) : Except JsString JsString :=
  match getProp eng data "video_path".toList with
  | .error m => .error m
  | .ok videoPath =>
    match callSplit eng videoPath '/' with
    | .error m => .error m
    | .ok segments =>
      .ok ("http://localhost:8000/static/".toList ++ interpolate (pop segments))

/-- The argument of `setStory`: `data.story` for a story video, else
`data.video_script || data.original_title`. -/
def caption (eng : Engine) (isStoryVideo : Bool) (data : JsVal) : Except JsString JsVal :=
  if isStoryVideo then getProp eng data "story".toList
  else
    match getProp eng data "video_script".toList with
    | .error m => .error m
    | .ok script =>
      if truthy script then .ok script else getProp eng data "original_title".toList

/-- The `try` block of `commonApiCall`, from the point where the fetch
promise settles. -/
def commonApiCallTry (eng : Engine) (isStoryVideo : Bool) (outcome : FetchOutcome)
    (s : AppState) : Ran :=
  match outcome with
  | .rejected m => ⟨s, some m⟩
  | .fulfilled response =>
    if !response.ok then
      match response.json with
      | .error m => ⟨s, some m⟩
      | .ok errorData =>
        match rejectionMessage eng errorData response.status with
        | .error m => ⟨s, some m⟩
        | .ok m => ⟨s, some m⟩
    else
      match response.json with
      | .error m => ⟨s, some m⟩
      | .ok data =>
        match displayUrl eng data with
        | .error m => ⟨s, some m⟩
        | .ok url =>
          let s := { s with videoUrl := url }
          match caption eng isStoryVideo data with
          | .error m => ⟨s, some m⟩
          | .ok text =>
            let s := { s with story := text }
            let s := { s with backgroundImageFile := .null }
            let s := { s with storyFileInput := s.storyFileInput.map fun _ => [] }
            let s := { s with redditFileInput := s.redditFileInput.map fun _ => [] }
            let s := { s with storyYoutubeUrl := [] }
            let s := { s with redditYoutubeUrl := [] }
            ⟨s, none⟩

/-- `commonApiCall` from the point where the fetch promise settles: the
`try` block, the `catch` clause for whatever it threw, the `finally` clause.
`thrown` is the exception that leaves the function. -/
def commonApiCallSettle (eng : Engine) (isStoryVideo : Bool) (outcome : FetchOutcome)
    (s : AppState) : Ran :=
  let r := commonApiCallTry eng isStoryVideo outcome s
  let r : Ran :=
    match r.thrown with
    | some m => ⟨{ r.state with error := "Failed to generate video: ".toList ++ m }, none⟩
    | none => r
  ⟨{ r.state with isLoading := false }, r.thrown⟩

/-- The whole of `commonApiCall(url, formData, isStoryVideo)` started in
state `s`, its fetch settling with `outcome`. -/
def commonApiCall (eng : Engine) (url : JsString) (formData : FormData) (isStoryVideo : Bool)
    (outcome : FetchOutcome) (s : AppState) : Ran :=
  commonApiCallSettle eng isStoryVideo outcome (commonApiCallBegin url formData isStoryVideo s).1

/-! ## The two submit handlers -/

/-- The handler `handleGenerateStoryVideo`: the state it leaves and the
`commonApiCall`s it has started. -/
def handleGenerateStoryVideo (s : AppState) : AppState × List Pending :=
  if (trim s.prompt).isEmpty then
    ({ s with error := "Please enter a prompt for the story video.".toList }, [])
  else
    let storyPromptData : List (JsString × JsVal) :=
      [("prompt".toList, .str s.prompt),
       ("generate_narration".toList, .bool s.storyGenerateNarration)]
    let storyPromptData :=
      if !(trim s.storyYoutubeUrl).isEmpty then
        storyPromptData ++ [("youtube_url".toList, .str (trim s.storyYoutubeUrl))]
      else storyPromptData
    let formData : FormData :=
      [("story_prompt_json".toList, .jsonBlob (.obj storyPromptData) "application/json".toList)]
    let formData :=
      match s.backgroundImageFile with
      | .file f => formData ++ [("background_image".toList, .file f)]
      | _ => formData
    commonApiCallBegin "http://localhost:8000/generate_story_video".toList formData true s

/-- The handler `handleGenerateRedditVideo`: the state it leaves and the
`commonApiCall`s it has started. -/
def handleGenerateRedditVideo (s : AppState) : AppState × List Pending :=
  if (trim s.subreddit).isEmpty then
    ({ s with error := "Please enter a subreddit name.".toList }, [])
  else
    let redditPromptData : List (JsString × JsVal) :=
      [("subreddit".toList, .str s.subreddit),
       ("generate_narration".toList, .bool s.redditGenerateNarration)]
    let redditPromptData :=
      if !(trim s.redditYoutubeUrl).isEmpty then
        redditPromptData ++ [("youtube_url".toList, .str (trim s.redditYoutubeUrl))]
      else redditPromptData
    let formData : FormData :=
      [("reddit_prompt_json".toList, .jsonBlob (.obj redditPromptData) "application/json".toList)]
    let formData :=
      match s.backgroundImageFile with
      | .file f => formData ++ [("background_image".toList, .file f)]
      | _ => formData
    commonApiCallBegin "http://localhost:8000/generate_reddit_video".toList formData false s

/-! ## The rendered form

Every input, file input, checkbox and button of the form is rendered with
`disabled={isLoading}`; a disabled control dispatches no `change` and no
`click`. What the controls carry, and what the handlers read, are the values
of the last render; the setters act on the component state, which the next
render picks up. -/

/-- The page: the state the last render was made from, the component state
with every setter call since applied, and the `commonApiCall`s suspended on a
fetch that has not settled yet. -/
structure Page where
  rendered : AppState
  app : AppState
  pending : List Pending

/-- What can happen to the page: a `change` of one of the controls, a
`click` on one of the two buttons, the fetch of the suspended call number
`index` settling, or React rendering the component again. -/
inductive Event where
  | changePrompt (value : JsString)
  | changeStoryYoutubeUrl (value : JsString)
  | changeStoryNarration (checked : Bool)
  | clickStory
  | changeSubreddit (value : JsString)
  | changeRedditYoutubeUrl (value : JsString)
  | changeRedditNarration (checked : Bool)
  | clickReddit
  | changeFile (event : FileChange)
  | settle (index : Nat) (outcome : FetchOutcome)
  | render

/-- A `change` on a control rendered with `disabled={isLoading}`: the
attribute is the one of the last render, the setter acts on the component
state. -/
def Page.change (p : Page) (update : AppState → AppState) : Page :=
  if p.rendered.isLoading then p else { p with app := update p.app }

/-- The component state as a submit handler created by the last render reads
it: the seven input variables the handlers read (`prompt`, `subreddit`, the
two URL fields, `backgroundImageFile`, the two narration flags) have their
rendered values. -/
def Page.seen (p : Page) : AppState :=
  { p.app with
      prompt := p.rendered.prompt,
      subreddit := p.rendered.subreddit,
      backgroundImageFile := p.rendered.backgroundImageFile,
      storyYoutubeUrl := p.rendered.storyYoutubeUrl,
      redditYoutubeUrl := p.rendered.redditYoutubeUrl,
      storyGenerateNarration := p.rendered.storyGenerateNarration,
      redditGenerateNarration := p.rendered.redditGenerateNarration }

/-- A `click` on a button rendered with `disabled={isLoading}` and
`onClick={handler}`. The attribute is the one of the last render. The
handler reads the inputs of the last render and its setters act on the
component state: it runs on `p.seen`, and the input variables, for which it
calls no setter, keep their current values. -/
def Page.click (p : Page) (handler : AppState → AppState × List Pending) : Page :=
  if p.rendered.isLoading then p
  else
    { p with
        app :=
          { (handler p.seen).1 with
              prompt := p.app.prompt,
              subreddit := p.app.subreddit,
              backgroundImageFile := p.app.backgroundImageFile,
              storyYoutubeUrl := p.app.storyYoutubeUrl,
              redditYoutubeUrl := p.app.redditYoutubeUrl,
              storyGenerateNarration := p.app.storyGenerateNarration,
              redditGenerateNarration := p.app.redditGenerateNarration },
        pending := p.pending ++ (handler p.seen).2 }

/-- The file input picks up its new `value`, then `onChange={handleFileChange}`
runs. -/
def changeFile (event : FileChange) (s : AppState) : AppState :=
  let s :=
    match event.target with
    | .story => { s with storyFileInput := s.storyFileInput.map fun _ => event.value }
    | .reddit => { s with redditFileInput := s.redditFileInput.map fun _ => event.value }
  handleFileChange event s

/-- One event on the page. -/
def step (eng : Engine) (p : Page) : Event → Page
  | .changePrompt v => p.change fun s => { s with prompt := v }
  | .changeStoryYoutubeUrl v => p.change fun s => { s with storyYoutubeUrl := v }
  | .changeStoryNarration b => p.change fun s => { s with storyGenerateNarration := b }
  | .clickStory => p.click handleGenerateStoryVideo
  | .changeSubreddit v => p.change fun s => { s with subreddit := v }
  | .changeRedditYoutubeUrl v => p.change fun s => { s with redditYoutubeUrl := v }
  | .changeRedditNarration b => p.change fun s => { s with redditGenerateNarration := b }
  | .clickReddit => p.click handleGenerateRedditVideo
  | .changeFile event => p.change (changeFile event)
  | .settle index outcome =>
    match p.pending.get? index with
    | none => p
    | some q =>
      { p with
          app := (commonApiCallSettle eng q.isStoryVideo outcome p.app).state,
          pending := p.pending.eraseIdx index }
  | .render => { p with rendered := p.app }

/-- The page after the first render. -/
def initialPage : Page where
  rendered := initialState
  app := initialState
  pending := []

/-- The page after a sequence of events, starting from the first render. -/
def run (eng : Engine) (events : List Event) : Page :=
  events.foldl (step eng) initialPage

/-- A sequence of events in which React renders again after each click,
before the next event is delivered: the given events, a `render` put after
each click. -/
def renderAfterClicks : List Event → List Event
  | [] => []
  | .clickStory :: rest => .clickStory :: .render :: renderAfterClicks rest
  | .clickReddit :: rest => .clickReddit :: .render :: renderAfterClicks rest
  | e :: rest => e :: renderAfterClicks rest

/-- The two messages the submit handlers store when validation rejects the
click. -/
def validationMessages : List JsString :=
  ["Please enter a prompt for the story video.".toList,
   "Please enter a subreddit name.".toList]

/-! ## Observations used in the statements -/

/-- The files a request carries under the form-data name `background_image`. -/
def backgroundImages : FormData → List File
  | [] => []
  | (name, .file f) :: rest =>
    if name = "background_image".toList then f :: backgroundImages rest
    else backgroundImages rest
  | (_, .jsonBlob _ _) :: rest => backgroundImages rest

/-- The values a request carries for `youtube_url` in its JSON parts. -/
def youtubeUrls : FormData → List JsVal
  | [] => []
  | (_, .jsonBlob (.obj props) _) :: rest =>
    match ownProp "youtube_url".toList props with
    | some v => v :: youtubeUrls rest
    | none => youtubeUrls rest
  | _ :: rest => youtubeUrls rest

/-- A successful response in the words of the specification: the fetch is
fulfilled, the status is a success, the body is JSON, and the body has a
string `video_path`; the result is that string. -/
def videoPathOf : FetchOutcome → Option JsString
  | .rejected _ => none
  | .fulfilled response =>
    if response.ok then
      match response.json with
      | .ok (.obj props) =>
        match ownProp "video_path".toList props with
        | some (.str p) => some p
        | _ => none
      | _ => none
    else none

/-- The invariant of the page between events when a render follows each
click: while `isLoading` is true exactly one call is suspended and neither a
result nor an error is stored; while it is false no call is suspended, and an
error stored next to a result is a validation message; and a page rendered
as not loading is not loading. -/
def SingleFlight (p : Page) : Prop :=
  (p.app.isLoading = true →
    p.app.videoUrl = [] ∧ p.app.error = [] ∧ p.pending.length = 1) ∧
  (p.app.isLoading = false →
    p.pending = [] ∧
    (p.app.videoUrl ≠ [] → p.app.error = [] ∨ p.app.error ∈ validationMessages)) ∧
  (p.rendered.isLoading = false → p.app.isLoading = false)

/-- An engine with fixed message texts, for concrete runs. -/
def plainEngine : Engine where
  typeErrorMessage
    | .readOfNullish _ => "Cannot read properties of undefined".toList
    | .notCallable _ => "not a function".toList
    | .noPrimitive => "Cannot convert object to primitive value".toList

/-- The file used in concrete runs. -/
def sampleFile : File where
  name := "bg.png".toList
  type := "image/png".toList
  bytes := [137, 80, 78, 71]

/-! ## Auxiliary facts: strings -/

theorem all_of_all_dropWhile (p : Char → Bool) (s : JsString)
    (h : ∀ c ∈ s.dropWhile p, p c = true) : ∀ c ∈ s, p c = true := by
  induction s with
  | nil => simp
  | cons a l ih =>
    by_cases ha : p a = true
    · simp only [List.dropWhile_cons, ha, if_true] at h
      intro c hc
      rcases List.mem_cons.mp hc with rfl | hc
      · exact ha
      · exact ih h c hc
    · have h1 : (a :: l).dropWhile p = a :: l := by simp [List.dropWhile_cons, ha]
      rw [h1] at h
      exact h

/-- The method `trim` returns the empty string exactly on the strings made
of white space only. -/
theorem trim_eq_nil_iff (s : JsString) :
    trim s = [] ↔ ∀ c ∈ s, isWhiteSpace c = true := by
  unfold trim
  rw [List.reverse_eq_nil_iff, List.dropWhile_eq_nil_iff]
  constructor
  · intro h
    apply all_of_all_dropWhile
    intro c hc
    exact h c (List.mem_reverse.mpr hc)
  · intro h c hc
    exact h c ((List.dropWhile_sublist _).subset (List.mem_reverse.mp hc))

theorem trim_isEmpty_iff (s : JsString) :
    (trim s).isEmpty = true ↔ ∀ c ∈ s, isWhiteSpace c = true := by
  rw [List.isEmpty_iff, trim_eq_nil_iff]

theorem trim_isEmpty_eq_false_iff (s : JsString) :
    (trim s).isEmpty = false ↔ ∃ c ∈ s, isWhiteSpace c = false := by
  rw [← Bool.not_eq_true, trim_isEmpty_iff]
  push_neg
  simp

theorem split_last_aux (sep : Char) (s : JsString) :
    ∃ seg, (split sep s).getLast? = some seg ∧ sep ∉ seg ∧
      ((split sep s = [seg] ∧ s = seg) ∨
        (2 ≤ (split sep s).length ∧ ∃ pre, s = pre ++ sep :: seg)) := by
  induction s with
  | nil => exact ⟨[], by simp [split]⟩
  | cons c cs ih =>
    obtain ⟨seg, hlast, hsep, hshape⟩ := ih
    by_cases hc : c = sep
    · subst hc
      cases hs : split c cs with
      | nil => rw [hs] at hlast; simp at hlast
      | cons a l =>
        rw [hs] at hlast
        refine ⟨seg, ?_, hsep, Or.inr ⟨?_, ?_⟩⟩
        · simpa [split, hs, List.getLast?_cons_cons] using hlast
        · simp [split, hs]
        · rcases hshape with ⟨_, h⟩ | ⟨_, pre, h⟩
          · exact ⟨[], by simp [h]⟩
          · exact ⟨c :: pre, by simp [h]⟩
    · rcases hshape with ⟨h1, h2⟩ | ⟨hlen, pre, h⟩
      · refine ⟨c :: seg, ?_, ?_, Or.inl ⟨?_, ?_⟩⟩
        · simp [split, hc, h1]
        · simp [hsep, Ne.symm hc]
        · simp [split, hc, h1]
        · simp [h2]
      · cases hs : split sep cs with
        | nil => rw [hs] at hlast; simp at hlast
        | cons a l =>
          rw [hs] at hlast hlen
          cases l with
          | nil => simp at hlen
          | cons b l =>
            refine ⟨seg, ?_, hsep, Or.inr ⟨?_, c :: pre, by simp [h]⟩⟩
            · simpa [split, hc, hs, List.getLast?_cons_cons] using hlast
            · simp [split, hc, hs]

/-- The result of `s.split(sep).pop()` is the part of `s` after its last
`sep`, or all of `s` when `sep` does not occur. -/
theorem pop_split (sep : Char) (s : JsString) :
    ∃ seg, pop (split sep s) = some seg ∧ sep ∉ seg ∧
      (s = seg ∨ ∃ pre, s = pre ++ sep :: seg) := by
  obtain ⟨seg, hlast, hsep, hshape⟩ := split_last_aux sep s
  refine ⟨seg, hlast, hsep, ?_⟩
  rcases hshape with ⟨_, h⟩ | ⟨_, h⟩
  · exact Or.inl h
  · exact Or.inr h

/-! ## Auxiliary facts: `commonApiCall` -/

theorem getProp_obj (eng : Engine) (props : List (JsString × JsVal)) (key : JsString) :
    getProp eng (.obj props) key = .ok ((ownProp key props).getD .undefined) := by
  simp only [getProp]
  cases ownProp key props <;> rfl

theorem caption_obj (eng : Engine) (isStoryVideo : Bool) (props : List (JsString × JsVal)) :
    ∃ text, caption eng isStoryVideo (.obj props) = .ok text := by
  unfold caption
  cases isStoryVideo
  · simp only [getProp_obj, Bool.false_eq_true, if_false]
    split <;> exact ⟨_, rfl⟩
  · simp only [getProp_obj, if_true]
    exact ⟨_, rfl⟩

/-- A successful response, taken apart. -/
theorem videoPathOf_eq_some {outcome : FetchOutcome} {p : JsString}
    (h : videoPathOf outcome = some p) :
    ∃ status props, outcome = .fulfilled ⟨true, status, .ok (.obj props)⟩ ∧
      ownProp "video_path".toList props = some (.str p) := by
  unfold videoPathOf at h
  split at h
  · simp at h
  · rename_i response
    obtain ⟨ok, status, json⟩ := response
    split at h
    · rename_i hok
      split at h
      · rename_i props hjson
        split at h
        · rename_i q hq
          simp only [Option.some.injEq] at h
          subst h
          simp only at hok hjson
          subst hok hjson
          exact ⟨status, props, rfl, hq⟩
        · simp at h
      · simp at h
    · simp at h

/-- On a successful response the `try` block runs to its end. -/
theorem try_success (eng : Engine) (isStoryVideo : Bool) (status : Nat)
    (props : List (JsString × JsVal)) (p : JsString) (s : AppState)
    (h : ownProp "video_path".toList props = some (.str p)) :
    ∃ text, caption eng isStoryVideo (.obj props) = .ok text ∧
      commonApiCallTry eng isStoryVideo (.fulfilled ⟨true, status, .ok (.obj props)⟩) s =
        ⟨{ s with
            videoUrl := "http://localhost:8000/static/".toList ++ interpolate (pop (split '/' p)),
            story := text,
            backgroundImageFile := .null,
            storyFileInput := s.storyFileInput.map fun _ => [],
            redditFileInput := s.redditFileInput.map fun _ => [],
            storyYoutubeUrl := [],
            redditYoutubeUrl := [] }, none⟩ := by
  obtain ⟨text, htext⟩ := caption_obj eng isStoryVideo props
  refine ⟨text, htext, ?_⟩
  simp only [commonApiCallTry, displayUrl, getProp_obj, h, Option.getD_some, callSplit, htext,
    Bool.not_true, Bool.false_eq_true, if_false]

/-- On any other outcome the `try` block throws before its first setter. -/
theorem try_failure (eng : Engine) (isStoryVideo : Bool) (outcome : FetchOutcome)
    (s : AppState) (h : videoPathOf outcome = none) :
    ∃ m, commonApiCallTry eng isStoryVideo outcome s = ⟨s, some m⟩ := by
  cases outcome with
  | rejected m => exact ⟨m, rfl⟩
  | fulfilled response =>
    obtain ⟨ok, status, json⟩ := response
    cases ok with
    | false =>
      cases json with
      | error m => exact ⟨m, rfl⟩
      | ok errorData =>
        simp only [commonApiCallTry, Bool.not_false, if_true]
        split <;> exact ⟨_, rfl⟩
    | true =>
      cases json with
      | error m => exact ⟨m, rfl⟩
      | ok data =>
        obtain ⟨m, hm⟩ : ∃ m, displayUrl eng data = .error m := by
          cases data with
          | obj props =>
            simp only [videoPathOf, if_true] at h
            simp only [displayUrl, getProp_obj]
            cases hp : ownProp "video_path".toList props with
            | none => exact ⟨_, rfl⟩
            | some v =>
              cases v with
              | str p => rw [hp] at h; simp at h
              | _ => exact ⟨_, rfl⟩
          | _ => exact ⟨_, rfl⟩
        exact ⟨m, by simp only [commonApiCallTry, Bool.not_true, Bool.false_eq_true, if_false, hm]⟩

theorem commonApiCallBegin_fst (url : JsString) (formData : FormData) (isStoryVideo : Bool)
    (s : AppState) :
    (commonApiCallBegin url formData isStoryVideo s).1 =
      { s with isLoading := true, videoUrl := [], story := .str [], error := [] } := by
  cases isStoryVideo <;> rfl

theorem commonApiCallBegin_snd (url : JsString) (formData : FormData) (isStoryVideo : Bool)
    (s : AppState) :
    (commonApiCallBegin url formData isStoryVideo s).2 =
      [{ call := { url := url, method := "POST".toList, body := formData },
         isStoryVideo := isStoryVideo }] := rfl

/-- The whole call on a successful response. -/
theorem commonApiCall_success (eng : Engine) (url : JsString) (formData : FormData)
    (isStoryVideo : Bool) (status : Nat) (props : List (JsString × JsVal)) (p : JsString)
    (s : AppState) (h : ownProp "video_path".toList props = some (.str p)) :
    ∃ text, caption eng isStoryVideo (.obj props) = .ok text ∧
      commonApiCall eng url formData isStoryVideo
          (.fulfilled ⟨true, status, .ok (.obj props)⟩) s =
        ⟨{ s with
            isLoading := false,
            error := [],
            videoUrl := "http://localhost:8000/static/".toList ++ interpolate (pop (split '/' p)),
            story := text,
            backgroundImageFile := .null,
            storyFileInput := s.storyFileInput.map fun _ => [],
            redditFileInput := s.redditFileInput.map fun _ => [],
            storyYoutubeUrl := [],
            redditYoutubeUrl := [] }, none⟩ := by
  obtain ⟨text, htext, htry⟩ :=
    try_success eng isStoryVideo status props p (commonApiCallBegin url formData isStoryVideo s).1 h
  refine ⟨text, htext, ?_⟩
  simp only [commonApiCall, commonApiCallSettle]
  rw [htry]
  simp only [commonApiCallBegin_fst]

/-- The whole call on any other outcome. -/
theorem commonApiCall_failure (eng : Engine) (url : JsString) (formData : FormData)
    (isStoryVideo : Bool) (outcome : FetchOutcome) (s : AppState)
    (h : videoPathOf outcome = none) :
    ∃ m, commonApiCallTry eng isStoryVideo outcome
          (commonApiCallBegin url formData isStoryVideo s).1 =
        ⟨(commonApiCallBegin url formData isStoryVideo s).1, some m⟩ ∧
      commonApiCall eng url formData isStoryVideo outcome s =
        ⟨{ s with
            isLoading := false,
            videoUrl := [],
            story := .str [],
            error := "Failed to generate video: ".toList ++ m }, none⟩ := by
  obtain ⟨m, htry⟩ :=
    try_failure eng isStoryVideo outcome (commonApiCallBegin url formData isStoryVideo s).1 h
  refine ⟨m, htry, ?_⟩
  simp only [commonApiCall, commonApiCallSettle]
  rw [htry]
  simp only [commonApiCallBegin_fst]

/-! ## The claims about `commonApiCall` -/

/-- C5: for every state before the submission and every successful response
(fulfilled fetch, success status, JSON body with a string `video_path`), the
state after `commonApiCall` has both background-URL fields empty and
`backgroundImageFile` null, and has both narration flags, the prompt and the
subreddit as they were before the submission. -/
theorem success_clears_background_keeps_rest (eng : Engine) (url : JsString)
    (formData : FormData) (isStoryVideo : Bool) (outcome : FetchOutcome) (s : AppState)
    (p : JsString) (h : videoPathOf outcome = some p) :
    (commonApiCall eng url formData isStoryVideo outcome s).state.storyYoutubeUrl = [] ∧
    (commonApiCall eng url formData isStoryVideo outcome s).state.redditYoutubeUrl = [] ∧
    (commonApiCall eng url formData isStoryVideo outcome s).state.backgroundImageFile = .null ∧
    (commonApiCall eng url formData isStoryVideo outcome s).state.storyGenerateNarration
      = s.storyGenerateNarration ∧
    (commonApiCall eng url formData isStoryVideo outcome s).state.redditGenerateNarration
      = s.redditGenerateNarration ∧
    (commonApiCall eng url formData isStoryVideo outcome s).state.prompt = s.prompt ∧
    (commonApiCall eng url formData isStoryVideo outcome s).state.subreddit = s.subreddit := by
  obtain ⟨status, props, rfl, hp⟩ := videoPathOf_eq_some h
  obtain ⟨text, -, hcall⟩ := commonApiCall_success eng url formData isStoryVideo status props p s hp
  rw [hcall]
  exact ⟨rfl, rfl, rfl, rfl, rfl, rfl, rfl⟩

/-- C6: for every state before the submission and every failing outcome
(rejected fetch, failure status, body that does not parse, or success body
without a string `video_path`), every input field is after `commonApiCall`
what it was before the submission. -/
theorem failure_keeps_inputs (eng : Engine) (url : JsString) (formData : FormData)
    (isStoryVideo : Bool) (outcome : FetchOutcome) (s : AppState)
    (h : videoPathOf outcome = none) :
    (commonApiCall eng url formData isStoryVideo outcome s).state.prompt = s.prompt ∧
    (commonApiCall eng url formData isStoryVideo outcome s).state.subreddit = s.subreddit ∧
    (commonApiCall eng url formData isStoryVideo outcome s).state.storyYoutubeUrl
      = s.storyYoutubeUrl ∧
    (commonApiCall eng url formData isStoryVideo outcome s).state.redditYoutubeUrl
      = s.redditYoutubeUrl ∧
    (commonApiCall eng url formData isStoryVideo outcome s).state.backgroundImageFile
      = s.backgroundImageFile ∧
    (commonApiCall eng url formData isStoryVideo outcome s).state.storyGenerateNarration
      = s.storyGenerateNarration ∧
    (commonApiCall eng url formData isStoryVideo outcome s).state.redditGenerateNarration
      = s.redditGenerateNarration ∧
    (commonApiCall eng url formData isStoryVideo outcome s).state.storyFileInput
      = s.storyFileInput ∧
    (commonApiCall eng url formData isStoryVideo outcome s).state.redditFileInput
      = s.redditFileInput := by
  obtain ⟨m, -, hcall⟩ := commonApiCall_failure eng url formData isStoryVideo outcome s h
  rw [hcall]
  exact ⟨rfl, rfl, rfl, rfl, rfl, rfl, rfl, rfl, rfl⟩

/-- C7: for every successful response with `video_path` equal to `p`, the
stored `videoUrl` is the static base followed by the last segment of `p`
between slashes (a string `seg` without a slash such that `p` is `seg` or
ends in a slash followed by `seg`), and for the story pipeline the stored
`story` is the `story` property of the response. -/
theorem display_url_is_base_and_final_segment (eng : Engine) (url : JsString)
    (formData : FormData) (isStoryVideo : Bool) (status : Nat)
    (props : List (JsString × JsVal)) (p : JsString) (s : AppState)
    (h : ownProp "video_path".toList props = some (.str p)) :
    ∃ seg,
      (commonApiCall eng url formData isStoryVideo
          (.fulfilled ⟨true, status, .ok (.obj props)⟩) s).state.videoUrl
        = "http://localhost:8000/static/".toList ++ seg ∧
      '/' ∉ seg ∧ (p = seg ∨ ∃ pre, p = pre ++ '/' :: seg) ∧
      (isStoryVideo = true →
        (commonApiCall eng url formData isStoryVideo
            (.fulfilled ⟨true, status, .ok (.obj props)⟩) s).state.story
          = (ownProp "story".toList props).getD .undefined) := by
  obtain ⟨text, htext, hcall⟩ :=
    commonApiCall_success eng url formData isStoryVideo status props p s h
  obtain ⟨seg, hpop, hsep, hshape⟩ := pop_split '/' p
  refine ⟨seg, ?_, hsep, hshape, ?_⟩
  · rw [hcall, hpop]
    rfl
  · intro hstory
    subst hstory
    rw [hcall]
    simp only [caption, if_true, getProp_obj, Except.ok.injEq] at htext
    exact htext.symm

/-- C7 at the scenario of the specification: `video_path` is
`/out/story_42.mp4`, `story` is `Once upon a time...`. -/
theorem display_url_is_base_and_final_segment_witness :
    ∃ seg,
      (commonApiCall plainEngine "http://localhost:8000/generate_story_video".toList [] true
          (.fulfilled ⟨true, 200, .ok (.obj
            [("video_path".toList, .str "/out/story_42.mp4".toList),
             ("story".toList, .str "Once upon a time...".toList)])⟩)
          initialState).state.videoUrl
        = "http://localhost:8000/static/".toList ++ seg ∧
      '/' ∉ seg ∧
      ("/out/story_42.mp4".toList = seg ∨ ∃ pre, "/out/story_42.mp4".toList = pre ++ '/' :: seg) ∧
      (true = true →
        (commonApiCall plainEngine "http://localhost:8000/generate_story_video".toList [] true
            (.fulfilled ⟨true, 200, .ok (.obj
              [("video_path".toList, .str "/out/story_42.mp4".toList),
               ("story".toList, .str "Once upon a time...".toList)])⟩)
            initialState).state.story
          = (ownProp "story".toList
              [("video_path".toList, .str "/out/story_42.mp4".toList),
               ("story".toList, .str "Once upon a time...".toList)]).getD .undefined) :=
  display_url_is_base_and_final_segment plainEngine _ [] true 200 _ _ initialState (by rfl)

/-- C9: for every outcome of the fetch, `commonApiCall` lets no exception
escape, ends with `isLoading` false, and leaves exactly one of two results:
`videoUrl` non-empty with `error` empty, or `error` non-empty with `videoUrl`
and `story` empty. -/
theorem outcome_is_all_ok_or_all_error (eng : Engine) (url : JsString) (formData : FormData)
    (isStoryVideo : Bool) (outcome : FetchOutcome) (s : AppState) :
    (commonApiCall eng url formData isStoryVideo outcome s).thrown = none ∧
    (commonApiCall eng url formData isStoryVideo outcome s).state.isLoading = false ∧
    (((commonApiCall eng url formData isStoryVideo outcome s).state.videoUrl ≠ [] ∧
        (commonApiCall eng url formData isStoryVideo outcome s).state.error = []) ∨
      ((commonApiCall eng url formData isStoryVideo outcome s).state.error ≠ [] ∧
        (commonApiCall eng url formData isStoryVideo outcome s).state.videoUrl = [] ∧
        (commonApiCall eng url formData isStoryVideo outcome s).state.story = .str [])) ∧
    ¬ (((commonApiCall eng url formData isStoryVideo outcome s).state.videoUrl ≠ [] ∧
        (commonApiCall eng url formData isStoryVideo outcome s).state.error = []) ∧
      ((commonApiCall eng url formData isStoryVideo outcome s).state.error ≠ [] ∧
        (commonApiCall eng url formData isStoryVideo outcome s).state.videoUrl = [] ∧
        (commonApiCall eng url formData isStoryVideo outcome s).state.story = .str [])) := by
  cases hv : videoPathOf outcome with
  | some p =>
    obtain ⟨status, props, rfl, hp⟩ := videoPathOf_eq_some hv
    obtain ⟨text, -, hcall⟩ :=
      commonApiCall_success eng url formData isStoryVideo status props p s hp
    rw [hcall]
    refine ⟨rfl, rfl, Or.inl ⟨?_, rfl⟩, ?_⟩
    · exact List.cons_ne_nil _ _
    · rintro ⟨⟨_, h1⟩, h2, _⟩
      exact h2 h1
  | none =>
    obtain ⟨m, -, hcall⟩ := commonApiCall_failure eng url formData isStoryVideo outcome s hv
    rw [hcall]
    refine ⟨rfl, rfl, Or.inr ⟨?_, rfl, rfl⟩, ?_⟩
    · exact List.cons_ne_nil _ _
    · rintro ⟨⟨_, h1⟩, h2, _⟩
      exact h2 h1

/-- C5 at a concrete submission: URL, file and narration set, the service
answers with a `video_path`. -/
theorem success_clears_background_keeps_rest_witness :
    videoPathOf (.fulfilled ⟨true, 200, .ok (.obj
        [("video_path".toList, .str "/out/story_42.mp4".toList)])⟩)
      = some "/out/story_42.mp4".toList ∧
    (commonApiCall plainEngine [] [] true
        (.fulfilled ⟨true, 200, .ok (.obj
          [("video_path".toList, .str "/out/story_42.mp4".toList)])⟩)
        { initialState with
            prompt := "A dragon learns to code".toList,
            storyYoutubeUrl := "https://yt.example/bg".toList,
            backgroundImageFile := .file sampleFile,
            storyGenerateNarration := true }).state.storyYoutubeUrl = [] ∧
    (commonApiCall plainEngine [] [] true
        (.fulfilled ⟨true, 200, .ok (.obj
          [("video_path".toList, .str "/out/story_42.mp4".toList)])⟩)
        { initialState with
            prompt := "A dragon learns to code".toList,
            storyYoutubeUrl := "https://yt.example/bg".toList,
            backgroundImageFile := .file sampleFile,
            storyGenerateNarration := true }).state.backgroundImageFile = .null ∧
    (commonApiCall plainEngine [] [] true
        (.fulfilled ⟨true, 200, .ok (.obj
          [("video_path".toList, .str "/out/story_42.mp4".toList)])⟩)
        { initialState with
            prompt := "A dragon learns to code".toList,
            storyYoutubeUrl := "https://yt.example/bg".toList,
            backgroundImageFile := .file sampleFile,
            storyGenerateNarration := true }).state.storyGenerateNarration = true :=
  have h := success_clears_background_keeps_rest plainEngine [] [] true
    (.fulfilled ⟨true, 200, .ok (.obj [("video_path".toList, .str "/out/story_42.mp4".toList)])⟩)
    { initialState with
        prompt := "A dragon learns to code".toList,
        storyYoutubeUrl := "https://yt.example/bg".toList,
        backgroundImageFile := .file sampleFile,
        storyGenerateNarration := true }
    "/out/story_42.mp4".toList (by rfl)
  ⟨by rfl, h.1, h.2.2.1, h.2.2.2.1⟩

/-- C6 at a concrete submission: the service answers 500 with a `detail`. -/
theorem failure_keeps_inputs_witness :
    videoPathOf (.fulfilled ⟨false, 500, .ok (.obj
        [("detail".toList, .str "model overloaded".toList)])⟩) = none ∧
    (commonApiCall plainEngine [] [] true
        (.fulfilled ⟨false, 500, .ok (.obj
          [("detail".toList, .str "model overloaded".toList)])⟩)
        { initialState with
            prompt := "A dragon learns to code".toList,
            storyYoutubeUrl := "https://yt.example/bg".toList,
            backgroundImageFile := .file sampleFile,
            storyGenerateNarration := true }).state.storyYoutubeUrl
      = "https://yt.example/bg".toList ∧
    (commonApiCall plainEngine [] [] true
        (.fulfilled ⟨false, 500, .ok (.obj
          [("detail".toList, .str "model overloaded".toList)])⟩)
        { initialState with
            prompt := "A dragon learns to code".toList,
            storyYoutubeUrl := "https://yt.example/bg".toList,
            backgroundImageFile := .file sampleFile,
            storyGenerateNarration := true }).state.backgroundImageFile = .file sampleFile :=
  have h := failure_keeps_inputs plainEngine [] [] true
    (.fulfilled ⟨false, 500, .ok (.obj [("detail".toList, .str "model overloaded".toList)])⟩)
    { initialState with
        prompt := "A dragon learns to code".toList,
        storyYoutubeUrl := "https://yt.example/bg".toList,
        backgroundImageFile := .file sampleFile,
        storyGenerateNarration := true }
    (by rfl)
  ⟨by rfl, h.2.2.1, h.2.2.2.2.1⟩

/-- C3, the claim as stated fails: on status 500 with body
`{"detail":"model overloaded"}` the stored error is not `model overloaded`
but that text after the prefix `Failed to generate video: `. -/
theorem stored_error_is_not_bare_detail :
    (commonApiCall plainEngine "http://localhost:8000/generate_story_video".toList [] true
        (.fulfilled ⟨false, 500, .ok (.obj
          [("detail".toList, .str "model overloaded".toList)])⟩)
        initialState).state.error
      = "Failed to generate video: model overloaded".toList ∧
    (commonApiCall plainEngine "http://localhost:8000/generate_story_video".toList [] true
        (.fulfilled ⟨false, 500, .ok (.obj
          [("detail".toList, .str "model overloaded".toList)])⟩)
        initialState).state.error
      ≠ "model overloaded".toList := by
  constructor
  · rfl
  · decide

/-- C3 as amended: for every failure response whose JSON body has a
non-empty string `detail` equal to `d`, the stored error is
`Failed to generate video: ` followed by `d`; when the body has no `detail`
it is `Failed to generate video: HTTP error! status: ` followed by the status
code in decimal. -/
theorem stored_error_is_prefixed_detail (eng : Engine) (url : JsString) (formData : FormData)
    (isStoryVideo : Bool) (status : Nat) (errorData : JsVal) (s : AppState) :
    (∀ d, getProp eng errorData "detail".toList = .ok (.str d) → d ≠ [] →
      (commonApiCall eng url formData isStoryVideo
          (.fulfilled ⟨false, status, .ok errorData⟩) s).state.error
        = "Failed to generate video: ".toList ++ d) ∧
    (getProp eng errorData "detail".toList = .ok .undefined →
      (commonApiCall eng url formData isStoryVideo
          (.fulfilled ⟨false, status, .ok errorData⟩) s).state.error
        = "Failed to generate video: ".toList ++
            ("HTTP error! status: ".toList ++ Nat.toDigits 10 status)) := by
  constructor
  · intro d hd hne
    have hm : rejectionMessage eng errorData status = .ok d := by
      cases d with
      | nil => exact absurd rfl hne
      | cons c cs => simp only [rejectionMessage, hd, truthy, List.isEmpty_cons, Bool.not_false,
          if_true, toStringJs]
    simp only [commonApiCall, commonApiCallSettle, commonApiCallTry, Bool.not_false, if_true, hm]
  · intro hd
    have hm : rejectionMessage eng errorData status
        = .ok ("HTTP error! status: ".toList ++ Nat.toDigits 10 status) := by
      simp only [rejectionMessage, hd, truthy, Bool.false_eq_true, if_false]
    simp only [commonApiCall, commonApiCallSettle, commonApiCallTry, Bool.not_false, if_true, hm]

/-- C3 as amended, at the scenario of the specification (status 500, `detail`
is `model overloaded`) and at status 500 with an empty JSON object. -/
theorem stored_error_is_prefixed_detail_witness :
    (commonApiCall plainEngine [] [] true
        (.fulfilled ⟨false, 500, .ok (.obj
          [("detail".toList, .str "model overloaded".toList)])⟩)
        initialState).state.error
      = "Failed to generate video: ".toList ++ "model overloaded".toList ∧
    (commonApiCall plainEngine [] [] true
        (.fulfilled ⟨false, 500, .ok (.obj [])⟩) initialState).state.error
      = "Failed to generate video: ".toList ++
          ("HTTP error! status: ".toList ++ Nat.toDigits 10 500) :=
  ⟨(stored_error_is_prefixed_detail plainEngine [] [] true 500
      (.obj [("detail".toList, .str "model overloaded".toList)]) initialState).1
      "model overloaded".toList (by rfl) (by decide),
   (stored_error_is_prefixed_detail plainEngine [] [] true 500 (.obj []) initialState).2
      (by rfl)⟩

/-! ## Auxiliary facts: the submit handlers -/

theorem story_blank (s : AppState) (h : (trim s.prompt).isEmpty = true) :
    handleGenerateStoryVideo s =
      ({ s with error := "Please enter a prompt for the story video.".toList }, []) := by
  simp only [handleGenerateStoryVideo, h, if_true]

theorem reddit_blank (s : AppState) (h : (trim s.subreddit).isEmpty = true) :
    handleGenerateRedditVideo s =
      ({ s with error := "Please enter a subreddit name.".toList }, []) := by
  simp only [handleGenerateRedditVideo, h, if_true]

/-- With a prompt that survives trimming the story handler starts one call;
`q` is that call. -/
theorem story_valid (s : AppState) (h : (trim s.prompt).isEmpty = false) :
    ∃ q, handleGenerateStoryVideo s =
        ({ s with isLoading := true, videoUrl := [], story := .str [], error := [] }, [q]) ∧
      q.isStoryVideo = true ∧
      youtubeUrls q.call.body =
        (if (trim s.storyYoutubeUrl).isEmpty then [] else [.str (trim s.storyYoutubeUrl)]) ∧
      backgroundImages q.call.body =
        (match s.backgroundImageFile with
          | .file f => [f]
          | _ => []) := by
  refine ⟨(handleGenerateStoryVideo s).2.headD ⟨⟨[], [], []⟩, true⟩, ?_, ?_, ?_, ?_⟩
  · simp only [handleGenerateStoryVideo, h, Bool.false_eq_true, if_false]
    rfl
  · simp only [handleGenerateStoryVideo, h, Bool.false_eq_true, if_false]
    rfl
  · simp only [handleGenerateStoryVideo, h, Bool.false_eq_true, if_false]
    cases hu : (trim s.storyYoutubeUrl).isEmpty <;> cases s.backgroundImageFile <;> rfl
  · simp only [handleGenerateStoryVideo, h, Bool.false_eq_true, if_false]
    cases hu : (trim s.storyYoutubeUrl).isEmpty <;> cases s.backgroundImageFile <;> rfl

/-- With a subreddit that survives trimming the community handler starts one
call; `q` is that call. -/
theorem reddit_valid (s : AppState) (h : (trim s.subreddit).isEmpty = false) :
    ∃ q, handleGenerateRedditVideo s =
        ({ s with isLoading := true, videoUrl := [], story := .str [], error := [] }, [q]) ∧
      q.isStoryVideo = false ∧
      youtubeUrls q.call.body =
        (if (trim s.redditYoutubeUrl).isEmpty then [] else [.str (trim s.redditYoutubeUrl)]) ∧
      backgroundImages q.call.body =
        (match s.backgroundImageFile with
          | .file f => [f]
          | _ => []) := by
  refine ⟨(handleGenerateRedditVideo s).2.headD ⟨⟨[], [], []⟩, true⟩, ?_, ?_, ?_, ?_⟩
  · simp only [handleGenerateRedditVideo, h, Bool.false_eq_true, if_false]
    rfl
  · simp only [handleGenerateRedditVideo, h, Bool.false_eq_true, if_false]
    rfl
  · simp only [handleGenerateRedditVideo, h, Bool.false_eq_true, if_false]
    cases hu : (trim s.redditYoutubeUrl).isEmpty <;> cases s.backgroundImageFile <;> rfl
  · simp only [handleGenerateRedditVideo, h, Bool.false_eq_true, if_false]
    cases hu : (trim s.redditYoutubeUrl).isEmpty <;> cases s.backgroundImageFile <;> rfl

theorem isEmpty_eq_false_of_ne_nil {s : JsString} (h : s ≠ []) : s.isEmpty = false := by
  cases s with
  | nil => exact absurd rfl h
  | cons c cs => rfl

/-! ## The claims about the submit handlers -/

/-- C4: for every prompt that is empty or made of white space only,
`handleGenerateStoryVideo` starts no `commonApiCall` (so no fetch) and stores
a non-empty error message, and likewise `handleGenerateRedditVideo` for such
a subreddit name; for every prompt (subreddit name) with a character that is
not white space, the handler starts exactly one call. -/
theorem blank_input_is_rejected_else_one_call (s : AppState) :
    ((∀ c ∈ s.prompt, isWhiteSpace c = true) →
      (handleGenerateStoryVideo s).2 = [] ∧ (handleGenerateStoryVideo s).1.error ≠ []) ∧
    ((∀ c ∈ s.subreddit, isWhiteSpace c = true) →
      (handleGenerateRedditVideo s).2 = [] ∧ (handleGenerateRedditVideo s).1.error ≠ []) ∧
    ((∃ c ∈ s.prompt, isWhiteSpace c = false) → (handleGenerateStoryVideo s).2.length = 1) ∧
    ((∃ c ∈ s.subreddit, isWhiteSpace c = false) →
      (handleGenerateRedditVideo s).2.length = 1) := by
  refine ⟨?_, ?_, ?_, ?_⟩
  · intro h
    rw [story_blank s ((trim_isEmpty_iff _).mpr h)]
    exact ⟨rfl, List.cons_ne_nil _ _⟩
  · intro h
    rw [reddit_blank s ((trim_isEmpty_iff _).mpr h)]
    exact ⟨rfl, List.cons_ne_nil _ _⟩
  · intro h
    obtain ⟨q, hq, -⟩ := story_valid s ((trim_isEmpty_eq_false_iff _).mpr h)
    rw [hq]
    rfl
  · intro h
    obtain ⟨q, hq, -⟩ := reddit_valid s ((trim_isEmpty_eq_false_iff _).mpr h)
    rw [hq]
    rfl

/-- C4 at a state whose prompt is three blanks and whose subreddit name is
`AskReddit`: the story handler starts nothing and stores an error, the
community handler starts one call. -/
theorem blank_input_is_rejected_else_one_call_witness :
    ((handleGenerateStoryVideo
        { initialState with prompt := "   ".toList, subreddit := "AskReddit".toList }).2 = [] ∧
      (handleGenerateStoryVideo
        { initialState with prompt := "   ".toList, subreddit := "AskReddit".toList }).1.error
        ≠ []) ∧
    (handleGenerateRedditVideo
        { initialState with prompt := "   ".toList, subreddit := "AskReddit".toList }).2.length
      = 1 :=
  ⟨(blank_input_is_rejected_else_one_call
      { initialState with prompt := "   ".toList, subreddit := "AskReddit".toList }).1
      (by decide),
   (blank_input_is_rejected_else_one_call
      { initialState with prompt := "   ".toList, subreddit := "AskReddit".toList }).2.2.2
      ⟨'A', by decide, by decide⟩⟩

/-- C1, the claim as stated fails: with a prompt, a subreddit name, a
background URL in both URL fields and a selected file, the request of either
handler carries the file as its `background_image` part, next to the trimmed
URL. -/
theorem url_does_not_drop_file :
    trim " https://yt.example/bg ".toList ≠ [] ∧
    (handleGenerateStoryVideo
        { initialState with
            prompt := "A dragon learns to code".toList,
            storyYoutubeUrl := " https://yt.example/bg ".toList,
            backgroundImageFile := .file sampleFile }).2.map
        (fun q => (youtubeUrls q.call.body, backgroundImages q.call.body))
      = [([.str "https://yt.example/bg".toList], [sampleFile])] ∧
    (handleGenerateRedditVideo
        { initialState with
            subreddit := "AskReddit".toList,
            redditYoutubeUrl := " https://yt.example/bg ".toList,
            backgroundImageFile := .file sampleFile }).2.map
        (fun q => (youtubeUrls q.call.body, backgroundImages q.call.body))
      = [([.str "https://yt.example/bg".toList], [sampleFile])] := by
  refine ⟨by decide, ?_, ?_⟩ <;> rfl

/-- C1 as amended: for both handlers, for every state whose required text
field and background-URL field are non-empty after trimming and in which a
file is selected, the handler starts one call whose request carries
`youtube_url` equal to the trimmed URL and also carries the selected file as
its `background_image` part. -/
theorem url_and_file_are_both_sent (s : AppState) (f : File)
    (hfile : s.backgroundImageFile = .file f) :
    (trim s.prompt ≠ [] → trim s.storyYoutubeUrl ≠ [] →
      ∃ q, (handleGenerateStoryVideo s).2 = [q] ∧
        youtubeUrls q.call.body = [.str (trim s.storyYoutubeUrl)] ∧
        backgroundImages q.call.body = [f]) ∧
    (trim s.subreddit ≠ [] → trim s.redditYoutubeUrl ≠ [] →
      ∃ q, (handleGenerateRedditVideo s).2 = [q] ∧
        youtubeUrls q.call.body = [.str (trim s.redditYoutubeUrl)] ∧
        backgroundImages q.call.body = [f]) := by
  constructor
  · intro hp hu
    obtain ⟨q, hq, -, hy, hb⟩ := story_valid s (isEmpty_eq_false_of_ne_nil hp)
    refine ⟨q, by rw [hq], ?_, ?_⟩
    · rw [hy, isEmpty_eq_false_of_ne_nil hu]
      rfl
    · rw [hb, hfile]
  · intro hp hu
    obtain ⟨q, hq, -, hy, hb⟩ := reddit_valid s (isEmpty_eq_false_of_ne_nil hp)
    refine ⟨q, by rw [hq], ?_, ?_⟩
    · rw [hy, isEmpty_eq_false_of_ne_nil hu]
      rfl
    · rw [hb, hfile]

/-- C1 as amended, at the community scenario of the specification
(`AskReddit`, URL `https://yt.example/bg`) with a file selected as well. -/
theorem url_and_file_are_both_sent_witness :
    ∃ q,
      (handleGenerateRedditVideo
          { initialState with
              subreddit := "AskReddit".toList,
              redditYoutubeUrl := "https://yt.example/bg".toList,
              backgroundImageFile := .file sampleFile }).2 = [q] ∧
      youtubeUrls q.call.body = [.str (trim "https://yt.example/bg".toList)] ∧
      backgroundImages q.call.body = [sampleFile] :=
  (url_and_file_are_both_sent
      { initialState with
          subreddit := "AskReddit".toList,
          redditYoutubeUrl := "https://yt.example/bg".toList,
          backgroundImageFile := .file sampleFile }
      sampleFile rfl).2 (by decide) (by decide)

/-- C10, the claim as stated fails: a file chosen through the story widget,
the community widget left empty, is carried by the next community request;
and a file chosen through the community widget by the next story request. -/
theorem file_slot_is_not_per_pipeline :
    (changeFile ⟨.story, "bg.png".toList, [sampleFile]⟩
        { initialState with subreddit := "AskReddit".toList }).redditFileInput = some [] ∧
    (handleGenerateRedditVideo
        (changeFile ⟨.story, "bg.png".toList, [sampleFile]⟩
          { initialState with subreddit := "AskReddit".toList })).2.map
        (fun q => backgroundImages q.call.body) = [[sampleFile]] ∧
    (changeFile ⟨.reddit, "bg.png".toList, [sampleFile]⟩
        { initialState with prompt := "A dragon learns to code".toList }).storyFileInput
      = some [] ∧
    (handleGenerateStoryVideo
        (changeFile ⟨.reddit, "bg.png".toList, [sampleFile]⟩
          { initialState with prompt := "A dragon learns to code".toList })).2.map
        (fun q => backgroundImages q.call.body) = [[sampleFile]] := by
  refine ⟨?_, ?_, ?_, ?_⟩ <;> rfl

/-- C10 as amended: the two pipelines share the one slot
`backgroundImageFile`. For every state and every file chosen through either
upload widget, the next request of the story handler and the next request of
the community handler (each when its required text field is non-empty after
trimming) carry that file as their `background_image` part. -/
theorem chosen_file_is_shared_by_both_pipelines (s : AppState) (event : FileChange)
    (f : File) (rest : List File) (hfiles : event.files = f :: rest) :
    (trim s.prompt ≠ [] →
      ∃ q, (handleGenerateStoryVideo (changeFile event s)).2 = [q] ∧
        backgroundImages q.call.body = [f]) ∧
    (trim s.subreddit ≠ [] →
      ∃ q, (handleGenerateRedditVideo (changeFile event s)).2 = [q] ∧
        backgroundImages q.call.body = [f]) := by
  have hslot : (changeFile event s).backgroundImageFile = .file f := by
    simp only [changeFile, handleFileChange, hfiles]
  have hprompt : (changeFile event s).prompt = s.prompt := by
    cases ht : event.target <;> simp only [changeFile, handleFileChange, ht]
  have hsub : (changeFile event s).subreddit = s.subreddit := by
    cases ht : event.target <;> simp only [changeFile, handleFileChange, ht]
  constructor
  · intro hp
    rw [← hprompt] at hp
    obtain ⟨q, hq, -, -, hb⟩ := story_valid _ (isEmpty_eq_false_of_ne_nil hp)
    exact ⟨q, by rw [hq], by rw [hb, hslot]⟩
  · intro hp
    rw [← hsub] at hp
    obtain ⟨q, hq, -, -, hb⟩ := reddit_valid _ (isEmpty_eq_false_of_ne_nil hp)
    exact ⟨q, by rw [hq], by rw [hb, hslot]⟩

/-- C10 as amended, at a file chosen through the story widget and a
community request for `AskReddit`. -/
theorem chosen_file_is_shared_by_both_pipelines_witness :
    ∃ q,
      (handleGenerateRedditVideo
          (changeFile ⟨.story, "bg.png".toList, [sampleFile]⟩
            { initialState with subreddit := "AskReddit".toList })).2 = [q] ∧
      backgroundImages q.call.body = [sampleFile] :=
  (chosen_file_is_shared_by_both_pipelines
      { initialState with subreddit := "AskReddit".toList }
      ⟨.story, "bg.png".toList, [sampleFile]⟩ sampleFile [] rfl).2 (by decide)

/-! ## The page: single flight -/

theorem story_handler_shape (s : AppState) :
    ((handleGenerateStoryVideo s).2 = [] ∧
      (handleGenerateStoryVideo s).1.isLoading = s.isLoading ∧
      (handleGenerateStoryVideo s).1.videoUrl = s.videoUrl ∧
      (handleGenerateStoryVideo s).1.error ∈ validationMessages) ∨
    (∃ q, (handleGenerateStoryVideo s).2 = [q] ∧ (handleGenerateStoryVideo s).1.isLoading = true ∧
      (handleGenerateStoryVideo s).1.videoUrl = [] ∧ (handleGenerateStoryVideo s).1.error = []) := by
  cases h : (trim s.prompt).isEmpty with
  | true =>
    refine Or.inl ?_
    rw [story_blank s h]
    exact ⟨rfl, rfl, rfl, List.mem_cons_self _ _⟩
  | false =>
    obtain ⟨q, hq, -⟩ := story_valid s h
    exact Or.inr ⟨q, by rw [hq]; exact ⟨rfl, rfl, rfl, rfl⟩⟩

theorem reddit_handler_shape (s : AppState) :
    ((handleGenerateRedditVideo s).2 = [] ∧
      (handleGenerateRedditVideo s).1.isLoading = s.isLoading ∧
      (handleGenerateRedditVideo s).1.videoUrl = s.videoUrl ∧
      (handleGenerateRedditVideo s).1.error ∈ validationMessages) ∨
    (∃ q, (handleGenerateRedditVideo s).2 = [q] ∧
      (handleGenerateRedditVideo s).1.isLoading = true ∧
      (handleGenerateRedditVideo s).1.videoUrl = [] ∧
      (handleGenerateRedditVideo s).1.error = []) := by
  cases h : (trim s.subreddit).isEmpty with
  | true =>
    refine Or.inl ?_
    rw [reddit_blank s h]
    exact ⟨rfl, rfl, rfl, List.mem_cons_of_mem _ (List.mem_cons_self _ _)⟩
  | false =>
    obtain ⟨q, hq, -⟩ := reddit_valid s h
    exact Or.inr ⟨q, by rw [hq]; exact ⟨rfl, rfl, rfl, rfl⟩⟩

theorem changeFile_outputs (event : FileChange) (s : AppState) :
    (changeFile event s).isLoading = s.isLoading ∧
    (changeFile event s).videoUrl = s.videoUrl ∧
    (changeFile event s).error = s.error := by
  cases ht : event.target <;> simp only [changeFile, handleFileChange, ht, and_self]

theorem singleFlight_change (p : Page) (update : AppState → AppState)
    (hupdate : ∀ s, (update s).isLoading = s.isLoading ∧ (update s).videoUrl = s.videoUrl ∧
      (update s).error = s.error)
    (h : SingleFlight p) : SingleFlight (p.change update) := by
  unfold Page.change
  cases hl : p.rendered.isLoading with
  | true => simpa using h
  | false =>
    simp only [Bool.false_eq_true, if_false]
    obtain ⟨h1, h2, h3⟩ := h
    obtain ⟨u1, u2, u3⟩ := hupdate p.app
    refine ⟨fun hc => ?_, fun hc => ?_, fun hc => ?_⟩
    · simp only [u1, u2, u3] at hc ⊢
      exact h1 hc
    · simp only [u1, u2, u3] at hc ⊢
      exact h2 hc
    · simp only [u1]
      exact h3 hl

/-- A click followed by a render keeps the invariant. -/
theorem singleFlight_click_render (eng : Engine) (p : Page)
    (handler : AppState → AppState × List Pending)
    (hhandler : ∀ s,
      ((handler s).2 = [] ∧ (handler s).1.isLoading = s.isLoading ∧
        (handler s).1.videoUrl = s.videoUrl ∧ (handler s).1.error ∈ validationMessages) ∨
      (∃ q, (handler s).2 = [q] ∧ (handler s).1.isLoading = true ∧
        (handler s).1.videoUrl = [] ∧ (handler s).1.error = []))
    (h : SingleFlight p) : SingleFlight (step eng (p.click handler) .render) := by
  obtain ⟨h1, h2, h3⟩ := h
  unfold Page.click
  cases hl : p.rendered.isLoading with
  | true =>
    simp only [if_true, step]
    exact ⟨h1, h2, fun hc => hc⟩
  | false =>
    simp only [Bool.false_eq_true, if_false, step]
    have happ := h3 hl
    obtain ⟨hpend, hshown⟩ := h2 happ
    have hseenL : p.seen.isLoading = false := happ
    have hseenV : p.seen.videoUrl = p.app.videoUrl := rfl
    rcases hhandler p.seen with ⟨c2, c1, cv, ce⟩ | ⟨q, c2, c1, cv, ce⟩
    · refine ⟨fun hc => ?_, fun _ => ⟨?_, fun _ => Or.inr ce⟩, fun hc => hc⟩
      · simp only [c1, hseenL] at hc
        exact absurd hc (by decide)
      · simp only [hpend, c2, List.append_nil]
    · refine ⟨fun _ => ⟨cv, ce, ?_⟩, fun hc => ?_, fun hc => hc⟩
      · simp only [hpend, c2, List.nil_append, List.length_singleton]
      · simp only [c1] at hc
        exact absurd hc (by decide)

theorem singleFlight_settle (eng : Engine) (p : Page) (index : Nat) (outcome : FetchOutcome)
    (h : SingleFlight p) : SingleFlight (step eng p (.settle index outcome)) := by
  obtain ⟨h1, h2, h3⟩ := h
  simp only [step]
  cases hq : p.pending.get? index with
  | none => exact ⟨h1, h2, h3⟩
  | some q =>
    simp only
    cases hl : p.app.isLoading with
    | false =>
      rw [(h2 hl).1] at hq
      simp at hq
    | true =>
      obtain ⟨hv, he, hlen⟩ := h1 hl
      have hfalse : (commonApiCallSettle eng q.isStoryVideo outcome p.app).state.isLoading
          = false := rfl
      have herase : p.pending.eraseIdx index = [] := by
        match hpend : p.pending, hlen with
        | [a], _ =>
          rw [hpend] at hq
          cases index with
          | zero => rfl
          | succ n => simp at hq
      refine ⟨fun hc => ?_, fun _ => ⟨herase, fun hshown => ?_⟩, fun _ => hfalse⟩
      · rw [hfalse] at hc
        exact absurd hc (by decide)
      · cases hvp : videoPathOf outcome with
        | some path =>
          obtain ⟨status, props, rfl, hp⟩ := videoPathOf_eq_some hvp
          obtain ⟨text, -, htry⟩ := try_success eng q.isStoryVideo status props path p.app hp
          refine Or.inl ?_
          simp only [commonApiCallSettle]
          rw [htry]
          exact he
        | none =>
          obtain ⟨m, htry⟩ := try_failure eng q.isStoryVideo outcome p.app hvp
          exfalso
          apply hshown
          simp only [commonApiCallSettle]
          rw [htry]
          exact hv

theorem singleFlight_render (eng : Engine) (p : Page) (h : SingleFlight p) :
    SingleFlight (step eng p .render) :=
  ⟨h.1, h.2.1, fun hc => hc⟩

theorem singleFlight_foldl (eng : Engine) (events : List Event) (p : Page)
    (h : SingleFlight p) :
    SingleFlight ((renderAfterClicks events).foldl (step eng) p) := by
  induction events generalizing p with
  | nil => exact h
  | cons e rest ih =>
    cases e with
    | clickStory =>
      exact ih _ (singleFlight_click_render eng p _ story_handler_shape h)
    | clickReddit =>
      exact ih _ (singleFlight_click_render eng p _ reddit_handler_shape h)
    | changePrompt v => exact ih _ (singleFlight_change p _ (fun _ => ⟨rfl, rfl, rfl⟩) h)
    | changeStoryYoutubeUrl v =>
      exact ih _ (singleFlight_change p _ (fun _ => ⟨rfl, rfl, rfl⟩) h)
    | changeStoryNarration b =>
      exact ih _ (singleFlight_change p _ (fun _ => ⟨rfl, rfl, rfl⟩) h)
    | changeSubreddit v => exact ih _ (singleFlight_change p _ (fun _ => ⟨rfl, rfl, rfl⟩) h)
    | changeRedditYoutubeUrl v =>
      exact ih _ (singleFlight_change p _ (fun _ => ⟨rfl, rfl, rfl⟩) h)
    | changeRedditNarration b =>
      exact ih _ (singleFlight_change p _ (fun _ => ⟨rfl, rfl, rfl⟩) h)
    | changeFile event => exact ih _ (singleFlight_change p _ (changeFile_outputs event) h)
    | settle index outcome => exact ih _ (singleFlight_settle eng p index outcome h)
    | render => exact ih _ (singleFlight_render eng p h)

/-- The invariant holds after every sequence of events in which a render
follows each click. -/
theorem singleFlight_run (eng : Engine) (events : List Event) :
    SingleFlight (run eng (renderAfterClicks events)) :=
  singleFlight_foldl eng events initialPage
    ⟨fun hc => absurd hc (by decide), fun _ => ⟨rfl, fun hc => absurd rfl hc⟩, fun _ => rfl⟩

/-- One event on a page with at most one call outstanding, and none when it
is rendered as not loading, leaves at most one call outstanding. -/
theorem pending_le_one_step (eng : Engine) (p : Page) (e : Event)
    (hle : p.pending.length ≤ 1) (hidle : p.rendered.isLoading = false → p.pending = []) :
    (step eng p e).pending.length ≤ 1 := by
  have hchange : ∀ update, (p.change update).pending.length ≤ 1 := by
    intro update
    unfold Page.change
    split <;> exact hle
  have hclick : ∀ handler : AppState → AppState × List Pending,
      (∀ s, (handler s).2.length ≤ 1) → (p.click handler).pending.length ≤ 1 := by
    intro handler hh
    unfold Page.click
    cases hl : p.rendered.isLoading with
    | true => simpa using hle
    | false =>
      simp only [Bool.false_eq_true, if_false, hidle hl, List.nil_append]
      exact hh _
  cases e with
  | clickStory =>
    refine hclick _ fun s => ?_
    rcases story_handler_shape s with ⟨h, -⟩ | ⟨q, h, -⟩ <;> simp [h]
  | clickReddit =>
    refine hclick _ fun s => ?_
    rcases reddit_handler_shape s with ⟨h, -⟩ | ⟨q, h, -⟩ <;> simp [h]
  | settle index outcome =>
    simp only [step]
    cases hq : p.pending.get? index with
    | none => exact hle
    | some q => exact le_trans (List.length_eraseIdx_le _ _) hle
  | render => exact hle
  | changePrompt v => exact hchange _
  | changeStoryYoutubeUrl v => exact hchange _
  | changeStoryNarration b => exact hchange _
  | changeSubreddit v => exact hchange _
  | changeRedditYoutubeUrl v => exact hchange _
  | changeRedditNarration b => exact hchange _
  | changeFile event => exact hchange _

/-! ## The claims about the lifecycle -/

/-- C2, the claim as stated fails: the handlers carry no guard of their own
and the buttons are disabled only by the next render. After a first click on
the story button `isLoading` is true and one call is outstanding; two more
clicks delivered before the page renders again start two more calls, and a
click on the other button delivered before the render starts a second call
as well. -/
theorem clicks_before_render_each_start_a_call :
    (run plainEngine
        [.changePrompt "A dragon learns to code".toList, .render, .clickStory]).app.isLoading
      = true ∧
    (run plainEngine
        [.changePrompt "A dragon learns to code".toList, .render, .clickStory]).pending.length
      = 1 ∧
    (run plainEngine
        [.changePrompt "A dragon learns to code".toList, .render, .clickStory, .clickStory,
         .clickStory]).pending.length = 3 ∧
    (run plainEngine
        [.changePrompt "A dragon learns to code".toList, .changeSubreddit "AskReddit".toList,
         .render, .clickStory, .clickReddit]).pending.length = 2 := by
  refine ⟨?_, ?_, ?_, ?_⟩ <;> rfl

/-- C2 as amended: single flight is enforced by the two buttons, rendered
with `disabled={isLoading}`, from the render that follows a submission. After
every sequence of page events (changes, clicks, settling fetches, renders) in
which a render follows each click: one call is outstanding while `isLoading`
is true and none while it is false, so at most one at any time across both
pipelines, also right after any one further event; and while `isLoading` is
true a click on either button starts no call. -/
theorem single_flight_once_rendered (eng : Engine) (events : List Event) :
    (run eng (renderAfterClicks events)).pending.length
      = (if (run eng (renderAfterClicks events)).app.isLoading then 1 else 0) ∧
    (run eng (renderAfterClicks events)).pending.length ≤ 1 ∧
    ((run eng (renderAfterClicks events)).app.isLoading = true →
      (step eng (run eng (renderAfterClicks events)) .clickStory).pending
        = (run eng (renderAfterClicks events)).pending ∧
      (step eng (run eng (renderAfterClicks events)) .clickReddit).pending
        = (run eng (renderAfterClicks events)).pending) ∧
    (∀ e : Event, (step eng (run eng (renderAfterClicks events)) e).pending.length ≤ 1) := by
  obtain ⟨h1, h2, h3⟩ := singleFlight_run eng events
  have hcount : (run eng (renderAfterClicks events)).pending.length
      = (if (run eng (renderAfterClicks events)).app.isLoading then 1 else 0) := by
    cases hl : (run eng (renderAfterClicks events)).app.isLoading with
    | true => simpa using (h1 hl).2.2
    | false => simp [(h2 hl).1]
  have hle : (run eng (renderAfterClicks events)).pending.length ≤ 1 := by
    rw [hcount]
    split <;> decide
  refine ⟨hcount, hle, fun hl => ?_, fun e => ?_⟩
  · have hr : (run eng (renderAfterClicks events)).rendered.isLoading = true := by
      cases hc : (run eng (renderAfterClicks events)).rendered.isLoading with
      | true => rfl
      | false =>
        rw [h3 hc] at hl
        exact absurd hl (by decide)
    simp only [step, Page.click, hr, if_true, and_self]
  · exact pending_le_one_step eng _ e hle
      (fun hc => (h2 (h3 hc)).1)

/-- C2 as amended, on the events of the counterexample with the render after
each click in place: three clicks on the story button and one on the other
button leave one call outstanding. -/
theorem single_flight_once_rendered_witness :
    (run plainEngine (renderAfterClicks
        [.changePrompt "A dragon learns to code".toList, .changeSubreddit "AskReddit".toList,
         .render, .clickStory, .clickStory, .clickStory, .clickReddit])).app.isLoading = true ∧
    (run plainEngine (renderAfterClicks
        [.changePrompt "A dragon learns to code".toList, .changeSubreddit "AskReddit".toList,
         .render, .clickStory, .clickStory, .clickStory, .clickReddit])).pending.length = 1 ∧
    (step plainEngine
        (run plainEngine (renderAfterClicks
          [.changePrompt "A dragon learns to code".toList, .changeSubreddit "AskReddit".toList,
           .render, .clickStory, .clickStory, .clickStory, .clickReddit]))
        .clickReddit).pending
      = (run plainEngine (renderAfterClicks
          [.changePrompt "A dragon learns to code".toList, .changeSubreddit "AskReddit".toList,
           .render, .clickStory, .clickStory, .clickStory, .clickReddit])).pending :=
  ⟨by rfl, by rfl,
   ((single_flight_once_rendered plainEngine
      [.changePrompt "A dragon learns to code".toList, .changeSubreddit "AskReddit".toList,
       .render, .clickStory, .clickStory, .clickStory, .clickReddit]).2.2.1 (by rfl)).2⟩

/-- C8, the claim as stated fails, in two ways. After a successful story
submission, a click with the prompt emptied is rejected by validation, and
the page then holds the rejection message together with the previous
`videoUrl`. And two clicks delivered before the page renders again start two
calls; when the first succeeds and the second is rejected by the network,
the page holds the failure message together with the result of the first. -/
theorem error_is_stored_with_previous_result :
    (run plainEngine
        [.changePrompt "A dragon learns to code".toList, .render,
         .clickStory, .render,
         .settle 0 (.fulfilled ⟨true, 200, .ok (.obj
            [("video_path".toList, .str "/out/story_42.mp4".toList),
             ("story".toList, .str "Once upon a time...".toList)])⟩), .render,
         .changePrompt [], .render,
         .clickStory, .render]).app.videoUrl
      = "http://localhost:8000/static/story_42.mp4".toList ∧
    (run plainEngine
        [.changePrompt "A dragon learns to code".toList, .render,
         .clickStory, .render,
         .settle 0 (.fulfilled ⟨true, 200, .ok (.obj
            [("video_path".toList, .str "/out/story_42.mp4".toList),
             ("story".toList, .str "Once upon a time...".toList)])⟩), .render,
         .changePrompt [], .render,
         .clickStory, .render]).app.error
      = "Please enter a prompt for the story video.".toList ∧
    (run plainEngine
        [.changePrompt "A dragon learns to code".toList, .render,
         .clickStory, .clickStory,
         .settle 0 (.fulfilled ⟨true, 200, .ok (.obj
            [("video_path".toList, .str "/out/story_42.mp4".toList),
             ("story".toList, .str "Once upon a time...".toList)])⟩),
         .settle 0 (.rejected "Failed to fetch".toList)]).app.videoUrl
      = "http://localhost:8000/static/story_42.mp4".toList ∧
    (run plainEngine
        [.changePrompt "A dragon learns to code".toList, .render,
         .clickStory, .clickStory,
         .settle 0 (.fulfilled ⟨true, 200, .ok (.obj
            [("video_path".toList, .str "/out/story_42.mp4".toList),
             ("story".toList, .str "Once upon a time...".toList)])⟩),
         .settle 0 (.rejected "Failed to fetch".toList)]).app.error
      = "Failed to generate video: Failed to fetch".toList := by
  refine ⟨?_, ?_, ?_, ?_⟩ <;> rfl

/-- C8 as amended: in every state reached from the first render by page
events (changes, clicks including ones rejected by validation, settling
fetches, renders) in which a render follows each click, at most one of
`isLoading` true, `videoUrl` non-empty, `error` non-empty holds, with one
exception: the message of a validation rejection can be stored together with
a previous result. That is, while `isLoading` is true both `videoUrl` and
`error` are empty, and when `videoUrl` and `error` are both non-empty the
error is one of the two validation messages. -/
theorem lifecycle_exclusive_up_to_validation (eng : Engine) (events : List Event) :
    ((run eng (renderAfterClicks events)).app.isLoading = true →
      (run eng (renderAfterClicks events)).app.videoUrl = [] ∧
      (run eng (renderAfterClicks events)).app.error = []) ∧
    ((run eng (renderAfterClicks events)).app.videoUrl ≠ [] →
      (run eng (renderAfterClicks events)).app.error ≠ [] →
      (run eng (renderAfterClicks events)).app.error
          = "Please enter a prompt for the story video.".toList ∨
        (run eng (renderAfterClicks events)).app.error
          = "Please enter a subreddit name.".toList) := by
  obtain ⟨h1, h2, -⟩ := singleFlight_run eng events
  refine ⟨fun hl => ⟨(h1 hl).1, (h1 hl).2.1⟩, fun hv he => ?_⟩
  cases hl : (run eng (renderAfterClicks events)).app.isLoading with
  | true => exact absurd (h1 hl).1 hv
  | false =>
    rcases (h2 hl).2 hv with h | h
    · exact absurd h he
    · simpa [validationMessages] using h

/-- C8 as amended, on two runs with a render after each click: a page that is
loading after a success and a rejected click, and the page that holds a
validation message next to the previous result. -/
theorem lifecycle_exclusive_up_to_validation_witness :
    ((run plainEngine (renderAfterClicks
        [.changePrompt "A dragon learns to code".toList, .render, .clickStory,
         .settle 0 (.fulfilled ⟨true, 200, .ok (.obj
            [("video_path".toList, .str "/out/story_42.mp4".toList)])⟩), .render,
         .changePrompt [], .render, .clickStory,
         .changeSubreddit "AskReddit".toList, .render, .clickReddit])).app.videoUrl = [] ∧
      (run plainEngine (renderAfterClicks
        [.changePrompt "A dragon learns to code".toList, .render, .clickStory,
         .settle 0 (.fulfilled ⟨true, 200, .ok (.obj
            [("video_path".toList, .str "/out/story_42.mp4".toList)])⟩), .render,
         .changePrompt [], .render, .clickStory,
         .changeSubreddit "AskReddit".toList, .render, .clickReddit])).app.error = []) ∧
    ((run plainEngine (renderAfterClicks
        [.changePrompt "A dragon learns to code".toList, .render, .clickStory,
         .settle 0 (.fulfilled ⟨true, 200, .ok (.obj
            [("video_path".toList, .str "/out/story_42.mp4".toList)])⟩), .render,
         .changePrompt [], .render, .clickStory])).app.error
        = "Please enter a prompt for the story video.".toList ∨
      (run plainEngine (renderAfterClicks
        [.changePrompt "A dragon learns to code".toList, .render, .clickStory,
         .settle 0 (.fulfilled ⟨true, 200, .ok (.obj
            [("video_path".toList, .str "/out/story_42.mp4".toList)])⟩), .render,
         .changePrompt [], .render, .clickStory])).app.error
        = "Please enter a subreddit name.".toList) :=
  ⟨(lifecycle_exclusive_up_to_validation plainEngine
      [.changePrompt "A dragon learns to code".toList, .render, .clickStory,
       .settle 0 (.fulfilled ⟨true, 200, .ok (.obj
          [("video_path".toList, .str "/out/story_42.mp4".toList)])⟩), .render,
       .changePrompt [], .render, .clickStory,
       .changeSubreddit "AskReddit".toList, .render, .clickReddit]).1 (by rfl),
   (lifecycle_exclusive_up_to_validation plainEngine
      [.changePrompt "A dragon learns to code".toList, .render, .clickStory,
       .settle 0 (.fulfilled ⟨true, 200, .ok (.obj
          [("video_path".toList, .str "/out/story_42.mp4".toList)])⟩), .render,
       .changePrompt [], .render, .clickStory]).2 (by decide) (by decide)⟩

end Vidiment
